import Mathlib

/-!
Shallow embedding of the 0xGQLForge MITM proxy (internal/proxy/proxy.go) and of
its traffic-based schema-inference engine (package inference) together with the
introspection parser (internal/parser) and the schema data model
(internal/schema/model.go).  Machine strings are modelled as Lean `String`
restricted to ASCII; raw JSON bytes are modelled as `String` and parsed with an
executable JSON reader mirroring encoding/json's behaviour on the shapes the
code decodes.
-/

/-! Section: ASCII string helpers (Go strings package, restricted to ASCII input) -/

/-- Does the second list start with the first one?  (Go: strings.HasPrefix.) -/
def charsStarts : List Char → List Char → Bool
  | [], _ => true
  | _ :: _, [] => false
  | p :: ps, c :: cs => p = c && charsStarts ps cs

/-- Index of the first occurrence of `pat` (Go: strings.Index; `some 0` for an
empty pattern).  Offsets are character offsets, which coincide with Go's byte
offsets on ASCII input. -/
def charsFindSub (pat : List Char) : List Char → Option Nat
  | [] => if pat.isEmpty then some 0 else none
  | c :: cs =>
    if charsStarts pat (c :: cs) then some 0
    else (charsFindSub pat cs).map (· + 1)

def strIndexOf (s pat : String) : Option Nat :=
  charsFindSub pat.data s.data

/-- Go: strings.Contains. -/
def strContainsSub (s pat : String) : Bool :=
  (strIndexOf s pat).isSome

/-- Go: strings.HasSuffix. -/
def strHasSuffix (s suf : String) : Bool :=
  charsStarts suf.data.reverse s.data.reverse

def asciiToLower (c : Char) : Char :=
  if 'A' ≤ c ∧ c ≤ 'Z' then Char.ofNat (c.toNat + 32) else c

def asciiToUpper (c : Char) : Char :=
  if 'a' ≤ c ∧ c ≤ 'z' then Char.ofNat (c.toNat - 32) else c

/-- Go: strings.ToLower (ASCII fragment). -/
def strToLower (s : String) : String :=
  ⟨s.data.map asciiToLower⟩

/-- The ASCII white-space characters recognised by Go's unicode.IsSpace. -/
def isGoSpace (c : Char) : Bool :=
  c = ' ' || c = '\t' || c = '\n' || c = '\r' || c = '\x0b' || c = '\x0c'

/-- Go: strings.TrimSpace (ASCII fragment). -/
def strTrimSpace (s : String) : String :=
  ⟨((s.data.dropWhile isGoSpace).reverse.dropWhile isGoSpace).reverse⟩

def strDropChars (s : String) (n : Nat) : String :=
  ⟨s.data.drop n⟩

/-- Go: strings.ContainsAny. -/
def strAnyCharIn (s set : String) : Bool :=
  s.data.any (fun c => set.data.contains c)

def charsSplitOn (sep : Char) : List Char → List (List Char)
  | [] => [[]]
  | c :: cs =>
    match charsSplitOn sep cs with
    | h :: t => if c = sep then [] :: h :: t else (c :: h) :: t
    | [] => [[c]]

/-- Go: strings.Split with a one-character separator. -/
def strSplitOn (s : String) (sep : Char) : List String :=
  (charsSplitOn sep s.data).map (fun l => ⟨l⟩)

def hexDigit (n : Nat) : Char :=
  if n < 10 then Char.ofNat (48 + n) else Char.ofNat (87 + n)

/-- Go: encoding/hex.EncodeToString over a byte slice (lowercase digits). -/
def hexEncodeBytes (bs : List Nat) : String :=
  ⟨bs.foldr (fun b acc => hexDigit ((b % 256) / 16) :: hexDigit (b % 256 % 16) :: acc) []⟩

/-! Section: JSON values and an executable reader

Raw JSON bytes are `String`s; `Json.parse` mirrors encoding/json's scanner on
the inputs this development evaluates (ASCII, no exotic escapes).  Numeric
literals keep their source text because the Go code inspects the raw bytes of
numbers (strings.ContainsAny(s, ".eE")). -/

inductive Json where
  | null : Json
  | bool (b : Bool) : Json
  | num (lit : String) : Json
  | str (s : String) : Json
  | arr (elems : List Json) : Json
  | obj (fields : List (String × Json)) : Json

/-- Does this value print as the literal `null`?  (Go code compares the raw
bytes of a json.RawMessage with "null".) -/
def Json.isNullLit : Json → Bool
  | .null => true
  | _ => false

def jsonWs (c : Char) : Bool :=
  c = ' ' || c = '\t' || c = '\n' || c = '\r'

def hexVal (c : Char) : Nat :=
  if '0' ≤ c ∧ c ≤ '9' then c.toNat - 48
  else if 'a' ≤ c ∧ c ≤ 'f' then c.toNat - 87
  else if 'A' ≤ c ∧ c ≤ 'F' then c.toNat - 55
  else 0

/-- Body of a JSON string literal, after the opening quote.  Returns the
decoded characters and the rest of the input after the closing quote. -/
def parseStringBody : Nat → List Char → Option (List Char × List Char)
  | 0, _ => none
  | _ + 1, [] => none
  | fuel + 1, c :: cs =>
    if c = '"' then some ([], cs)
    else if c = '\\' then
      match cs with
      | [] => none
      | e :: cs2 =>
        if e = 'u' then
          match cs2 with
          | a :: b :: c2 :: d :: cs3 =>
            let code := ((hexVal a * 16 + hexVal b) * 16 + hexVal c2) * 16 + hexVal d
            (parseStringBody fuel cs3).map (fun r => (Char.ofNat code :: r.1, r.2))
          | _ => none
        else
          let ch :=
            if e = 'n' then '\n' else if e = 't' then '\t' else if e = 'r' then '\r'
            else if e = 'b' then '\x08' else if e = 'f' then '\x0c' else e
          (parseStringBody fuel cs2).map (fun r => (ch :: r.1, r.2))
    else (parseStringBody fuel cs).map (fun r => (c :: r.1, r.2))

def isNumChar (c : Char) : Bool :=
  c = '-' || c = '+' || c = '.' || c = 'e' || c = 'E' || ('0' ≤ c && c ≤ '9')

mutual

def parseJsonVal : Nat → List Char → Option (Json × List Char)
  | 0, _ => none
  | fuel + 1, cs =>
    match cs.dropWhile jsonWs with
    | [] => none
    | c :: rest =>
      if c = 'n' then
        if charsStarts ['u', 'l', 'l'] rest then some (.null, rest.drop 3) else none
      else if c = 't' then
        if charsStarts ['r', 'u', 'e'] rest then some (.bool true, rest.drop 3) else none
      else if c = 'f' then
        if charsStarts ['a', 'l', 's', 'e'] rest then some (.bool false, rest.drop 4) else none
      else if c = '"' then
        (parseStringBody fuel rest).map (fun r => (.str ⟨r.1⟩, r.2))
      else if c = '\x7b' then
        match rest.dropWhile jsonWs with
        | [] => none
        | d :: r2 =>
          if d = '\x7d' then some (.obj [], r2)
          else (parseJsonMembers fuel rest).map (fun r => (.obj r.1, r.2))
      else if c = '[' then
        match rest.dropWhile jsonWs with
        | [] => none
        | d :: r2 =>
          if d = ']' then some (.arr [], r2)
          else (parseJsonElems fuel rest).map (fun r => (.arr r.1, r.2))
      else if isNumChar c then
        some (.num ⟨(c :: rest).takeWhile isNumChar⟩, (c :: rest).dropWhile isNumChar)
      else none

def parseJsonMembers : Nat → List Char → Option (List (String × Json) × List Char)
  | 0, _ => none
  | fuel + 1, cs =>
    match cs.dropWhile jsonWs with
    | [] => none
    | c :: r1 =>
      if c = '"' then
        match parseStringBody fuel r1 with
        | none => none
        | some (key, r2) =>
          match r2.dropWhile jsonWs with
          | ':' :: r3 =>
            match parseJsonVal fuel r3 with
            | none => none
            | some (v, r4) =>
              match r4.dropWhile jsonWs with
              | [] => none
              | d :: r5 =>
                if d = ',' then
                  match parseJsonMembers fuel r5 with
                  | some (fs, r6) => some ((⟨key⟩, v) :: fs, r6)
                  | none => none
                else if d = '\x7d' then some ([(⟨key⟩, v)], r5)
                else none
          | _ => none
      else none

def parseJsonElems : Nat → List Char → Option (List Json × List Char)
  | 0, _ => none
  | fuel + 1, cs =>
    match parseJsonVal fuel cs with
    | none => none
    | some (v, r1) =>
      match r1.dropWhile jsonWs with
      | [] => none
      | d :: r2 =>
        if d = ',' then
          match parseJsonElems fuel r2 with
          | some (es, r3) => some (v :: es, r3)
          | none => none
        else if d = ']' then some ([v], r2)
        else none

end

/-- Parse a whole byte string as one JSON value (encoding/json.Unmarshal
succeeds only when the entire input is consumed). -/
def Json.parse (s : String) : Option Json :=
  match parseJsonVal (4 * s.length + 16) s.data with
  | some (j, rest) => if (rest.dropWhile jsonWs).isEmpty then some j else none
  | none => none

def renderStrLit (s : String) : String :=
  let esc : Char → List Char := fun c =>
    if c = '"' then ['\\', '"']
    else if c = '\\' then ['\\', '\\']
    else if c = '\n' then ['\\', 'n']
    else if c = '\t' then ['\\', 't']
    else if c = '\r' then ['\\', 'r']
    else [c]
  ⟨'"' :: s.data.foldr (fun c acc => esc c ++ acc) ['"']⟩

mutual

/-- Compact rendering of a JSON value (the form encoding/json emits). -/
def Json.render : Json → String
  | .null => "null"
  | .bool true => "true"
  | .bool false => "false"
  | .num lit => lit
  | .str s => renderStrLit s
  | .arr es => "[" ++ renderJsonElems es ++ "]"
  | .obj fs => "\x7b" ++ renderJsonMembers fs ++ "\x7d"

def renderJsonElems : List Json → String
  | [] => ""
  | [e] => e.render
  | e :: e2 :: es => e.render ++ "," ++ renderJsonElems (e2 :: es)

def renderJsonMembers : List (String × Json) → String
  | [] => ""
  | [(k, v)] => renderStrLit k ++ ":" ++ v.render
  | (k, v) :: f2 :: fs => renderStrLit k ++ ":" ++ v.render ++ "," ++ renderJsonMembers (f2 :: fs)

end

/-! Section: Schema data model (internal/schema/model.go)

`TypeKind` and `SchemaSource` are Go string types, so they are plain strings
here (the introspection converter casts arbitrary JSON strings into
`TypeKind`).  Go's `schema.Type` and `schema.Field` are named `SType` and
`SField` because `Type` and `Field` are taken in Lean/Mathlib.  The pointer
`OfType *TypeRef` is encoded by the two constructors `base` (nil pointer) and
`wrap` (pointer present). -/

abbrev TypeKind := String

def KindScalar : TypeKind := "SCALAR"
def KindObject : TypeKind := "OBJECT"
def KindInterface : TypeKind := "INTERFACE"
def KindUnion : TypeKind := "UNION"
def KindEnum : TypeKind := "ENUM"
def KindInputObject : TypeKind := "INPUT_OBJECT"
def KindList : TypeKind := "LIST"
def KindNonNull : TypeKind := "NON_NULL"

abbrev SchemaSource := String

def SourceIntrospection : SchemaSource := "introspection"
def SourceReconstruction : SchemaSource := "reconstruction"
def SourceImport : SchemaSource := "import"

inductive TypeRef where
  | base (kind : TypeKind) (name : Option String)
  | wrap (kind : TypeKind) (name : Option String) (ofType : TypeRef)
deriving DecidableEq, Repr

def TypeRef.kind : TypeRef → TypeKind
  | .base k _ => k
  | .wrap k _ _ => k

def TypeRef.refName : TypeRef → Option String
  | .base _ n => n
  | .wrap _ n _ => n

structure SArgument where
  name : String
  description : String
  type : TypeRef
  defaultValue : Option String
deriving DecidableEq, Repr

structure SField where
  name : String
  description : String
  type : TypeRef
  args : List SArgument
  isDeprecated : Bool
  deprecationReason : String
deriving DecidableEq, Repr

structure SEnumValue where
  name : String
  description : String
  isDeprecated : Bool
  deprecationReason : String
deriving DecidableEq, Repr

structure SDirective where
  name : String
  description : String
  locations : List String
  args : List SArgument
deriving DecidableEq, Repr

structure SType where
  name : String
  kind : TypeKind
  description : String
  fields : List SField
  inputFields : List SField
  enumValues : List SEnumValue
  interfaces : List String
  possibleTypes : List String
deriving DecidableEq, Repr

structure Schema where
  id : String
  name : String
  source : SchemaSource
  queryType : String
  mutationType : String
  subscriptionType : String
  types : List SType
  directives : List SDirective
  createdAt : Nat
deriving DecidableEq, Repr

/-! Section: Introspection parser (internal/parser, ParseIntrospection)

The raw* structures mirror the unexported structs the parser unmarshals into;
`Option` encodes Go pointers (nil = `none`).  The decoders model
encoding/json.Unmarshal on these shapes: unknown keys are ignored, keys match
field tags case-insensitively with the last occurrence winning, JSON null
leaves the zero value, and a type mismatch anywhere is an error (`none`). -/

structure RawNameRef where
  name : String
deriving DecidableEq, Repr

inductive RawTypeRef where
  | base (kind : Option String) (name : Option String)
  | wrap (kind : Option String) (name : Option String) (ofType : RawTypeRef)
deriving DecidableEq, Repr

def RawTypeRef.refName : RawTypeRef → Option String
  | .base _ n => n
  | .wrap _ n _ => n

structure RawArg where
  name : String
  description : Option String
  type : RawTypeRef
  defaultValue : Option String
deriving DecidableEq, Repr

structure RawField where
  name : String
  description : Option String
  args : List RawArg
  type : RawTypeRef
  isDeprecated : Bool
  deprecationReason : Option String
deriving DecidableEq, Repr

structure RawEnumValue where
  name : String
  description : Option String
  isDeprecated : Bool
  deprecationReason : Option String
deriving DecidableEq, Repr

structure RawDirective where
  name : String
  description : Option String
  locations : List String
  args : List RawArg
deriving DecidableEq, Repr

structure RawType where
  kind : String
  name : String
  description : Option String
  fields : List RawField
  inputFields : List RawField
  interfaces : List RawTypeRef
  enumValues : List RawEnumValue
  possibleTypes : List RawTypeRef
deriving DecidableEq, Repr

structure RawSchema where
  queryType : Option RawNameRef
  mutationType : Option RawNameRef
  subscriptionType : Option RawNameRef
  types : List RawType
  directives : List RawDirective
deriving DecidableEq, Repr

def rawSchemaZero : RawSchema :=
  ⟨none, none, none, [], []⟩

/-- Look a key up in a decoded JSON object the way encoding/json matches
object keys to struct tags: ASCII case-insensitively, last occurrence wins. -/
def jsonLookup (fs : List (String × Json)) (key : String) : Option Json :=
  ((fs.filter (fun p => strToLower p.1 = strToLower key)).getLast?).map (·.2)

def decodeString : Json → Option String
  | .null => some ""
  | .str s => some s
  | _ => none

def decodeStrPtr : Json → Option (Option String)
  | .null => some none
  | .str s => some (some s)
  | _ => none

def decodeBool : Json → Option Bool
  | .null => some false
  | .bool b => some b
  | _ => none

def decodeList (dec : Json → Option α) : Json → Option (List α)
  | .null => some []
  | .arr es => es.mapM dec
  | _ => none

/-- Decode a struct field: absent keys keep the zero value `dflt`. -/
def decField (fs : List (String × Json)) (key : String) (dec : Json → Option α)
    (dflt : α) : Option α :=
  match jsonLookup fs key with
  | none => some dflt
  | some v => dec v

def decodeRawTypeRef : Nat → Json → Option RawTypeRef
  | 0, _ => none
  | fuel + 1, j =>
    match j with
    | .null => some (.base none none)
    | .obj fs => do
      let kind ← decField fs "kind" decodeStrPtr none
      let name ← decField fs "name" decodeStrPtr none
      match jsonLookup fs "ofType" with
      | none => some (.base kind name)
      | some .null => some (.base kind name)
      | some inner => (decodeRawTypeRef fuel inner).map (.wrap kind name)
    | _ => none

mutual

/-- Executable structural size of a JSON value, used as decoding fuel. -/
def Json.size : Json → Nat
  | .null => 1
  | .bool _ => 1
  | .num _ => 1
  | .str _ => 1
  | .arr es => 1 + jsonListSize es
  | .obj fs => 1 + jsonFieldsSize fs

def jsonListSize : List Json → Nat
  | [] => 0
  | j :: js => Json.size j + jsonListSize js + 1

def jsonFieldsSize : List (String × Json) → Nat
  | [] => 0
  | (_, v) :: fs => Json.size v + jsonFieldsSize fs + 1

end

def decodeTypeRefJ (j : Json) : Option RawTypeRef :=
  decodeRawTypeRef j.size j

def decodeRawArg : Json → Option RawArg
  | .null => some ⟨"", none, .base none none, none⟩
  | .obj fs => do
    let name ← decField fs "name" decodeString ""
    let description ← decField fs "description" decodeStrPtr none
    let t ← decField fs "type" decodeTypeRefJ (.base none none)
    let dv ← decField fs "defaultValue" decodeStrPtr none
    some ⟨name, description, t, dv⟩
  | _ => none

def decodeRawField : Json → Option RawField
  | .null => some ⟨"", none, [], .base none none, false, none⟩
  | .obj fs => do
    let name ← decField fs "name" decodeString ""
    let description ← decField fs "description" decodeStrPtr none
    let args ← decField fs "args" (decodeList decodeRawArg) []
    let t ← decField fs "type" decodeTypeRefJ (.base none none)
    let dep ← decField fs "isDeprecated" decodeBool false
    let reason ← decField fs "deprecationReason" decodeStrPtr none
    some ⟨name, description, args, t, dep, reason⟩
  | _ => none

def decodeRawEnumValue : Json → Option RawEnumValue
  | .null => some ⟨"", none, false, none⟩
  | .obj fs => do
    let name ← decField fs "name" decodeString ""
    let description ← decField fs "description" decodeStrPtr none
    let dep ← decField fs "isDeprecated" decodeBool false
    let reason ← decField fs "deprecationReason" decodeStrPtr none
    some ⟨name, description, dep, reason⟩
  | _ => none

def decodeRawDirective : Json → Option RawDirective
  | .null => some ⟨"", none, [], []⟩
  | .obj fs => do
    let name ← decField fs "name" decodeString ""
    let description ← decField fs "description" decodeStrPtr none
    let locations ← decField fs "locations" (decodeList decodeString) []
    let args ← decField fs "args" (decodeList decodeRawArg) []
    some ⟨name, description, locations, args⟩
  | _ => none

def decodeRawType : Json → Option RawType
  | .null => some ⟨"", "", none, [], [], [], [], []⟩
  | .obj fs => do
    let kind ← decField fs "kind" decodeString ""
    let name ← decField fs "name" decodeString ""
    let description ← decField fs "description" decodeStrPtr none
    let fields ← decField fs "fields" (decodeList decodeRawField) []
    let inputFields ← decField fs "inputFields" (decodeList decodeRawField) []
    let interfaces ← decField fs "interfaces" (decodeList decodeTypeRefJ) []
    let enumValues ← decField fs "enumValues" (decodeList decodeRawEnumValue) []
    let possibleTypes ← decField fs "possibleTypes" (decodeList decodeTypeRefJ) []
    some ⟨kind, name, description, fields, inputFields, interfaces, enumValues, possibleTypes⟩
  | _ => none

def decodeRawNameRefPtr : Json → Option (Option RawNameRef)
  | .null => some none
  | .obj fs => do
    let name ← decField fs "name" decodeString ""
    some (some ⟨name⟩)
  | _ => none

def decodeRawSchema : Json → Option RawSchema
  | .null => some rawSchemaZero
  | .obj fs => do
    let q ← decField fs "queryType" decodeRawNameRefPtr none
    let m ← decField fs "mutationType" decodeRawNameRefPtr none
    let s ← decField fs "subscriptionType" decodeRawNameRefPtr none
    let types ← decField fs "types" (decodeList decodeRawType) []
    let directives ← decField fs "directives" (decodeList decodeRawDirective) []
    some ⟨q, m, s, types, directives⟩
  | _ => none

/-- Unmarshal target `introspectionResponse`: the standard shape
`data.__schema`. -/
def decodeShape1 : Json → Option RawSchema
  | .null => some rawSchemaZero
  | .obj fs =>
    match jsonLookup fs "data" with
    | none => some rawSchemaZero
    | some .null => some rawSchemaZero
    | some (.obj dfs) =>
      match jsonLookup dfs "__schema" with
      | none => some rawSchemaZero
      | some s => decodeRawSchema s
    | some _ => none
  | _ => none

/-- Unmarshal target `altIntrospectionResponse`: `__schema` at the root. -/
def decodeShape2 : Json → Option RawSchema
  | .null => some rawSchemaZero
  | .obj fs =>
    match jsonLookup fs "__schema" with
    | none => some rawSchemaZero
    | some s => decodeRawSchema s
  | _ => none

/-- Go: parser.extractRawSchema — try the three response shapes in order; a
shape is accepted when it unmarshals without error and yields ≥ 1 type. -/
def extractRawSchema (data : String) : Option RawSchema :=
  match Json.parse data with
  | none => none
  | some j =>
    let r1 := match decodeShape1 j with
      | some std => if 0 < std.types.length then some std else none
      | none => none
    match r1 with
    | some std => some std
    | none =>
      let r2 := match decodeShape2 j with
        | some alt => if 0 < alt.types.length then some alt else none
        | none => none
      match r2 with
      | some alt => some alt
      | none =>
        match decodeRawSchema j with
        | some raw => if 0 < raw.types.length then some raw else none
        | none => none

def convertTypeRef : RawTypeRef → TypeRef
  | .base kind name => .base (kind.getD "") name
  | .wrap kind name inner => .wrap (kind.getD "") name (convertTypeRef inner)

def convertArg (ra : RawArg) : SArgument :=
  { name := ra.name
    description := ra.description.getD ""
    type := convertTypeRef ra.type
    defaultValue := ra.defaultValue }

def convertField (rf : RawField) : SField :=
  { name := rf.name
    description := rf.description.getD ""
    type := convertTypeRef rf.type
    args := rf.args.map convertArg
    isDeprecated := rf.isDeprecated
    deprecationReason := rf.deprecationReason.getD "" }

def convertEnumValue (rev : RawEnumValue) : SEnumValue :=
  { name := rev.name
    description := rev.description.getD ""
    isDeprecated := rev.isDeprecated
    deprecationReason := rev.deprecationReason.getD "" }

def convertDirective (rd : RawDirective) : SDirective :=
  { name := rd.name
    description := rd.description.getD ""
    locations := rd.locations
    args := rd.args.map convertArg }

def convertType (rt : RawType) : SType :=
  { name := rt.name
    kind := rt.kind
    description := rt.description.getD ""
    fields := rt.fields.map convertField
    inputFields := rt.inputFields.map convertField
    enumValues := rt.enumValues.map convertEnumValue
    interfaces := rt.interfaces.filterMap RawTypeRef.refName
    possibleTypes := rt.possibleTypes.filterMap RawTypeRef.refName }

/-- Go: parser.ParseIntrospection.  `now` stands in for `time.Now().UTC()`. -/
def ParseIntrospection (data : String) (id : String) (name : String) (now : Nat) :
    Option Schema :=
  match extractRawSchema data with
  | none => none
  | some raw =>
    some
      { id := id
        name := name
        source := SourceIntrospection
        queryType := match raw.queryType with | some q => q.name | none => ""
        mutationType := match raw.mutationType with | some m => m.name | none => ""
        subscriptionType := match raw.subscriptionType with | some st => st.name | none => ""
        types := raw.types.map convertType
        directives := raw.directives.map convertDirective
        createdAt := now }

/-! Section: Captured traffic (schema.CapturedRequest)

`timestamp` is an abstract UTC instant; raw-byte fields are strings,
`none`/`""` standing for an unset json.RawMessage.  The Go field `Variables`
is called `variablesRaw` because `variables` is a reserved token in Lean. -/

structure CapturedRequest where
  id : String
  timestamp : Nat
  method : String
  url : String
  host : String
  headers : List (String × String)
  operationName : String
  query : String
  variablesRaw : Option String
  responseCode : Nat
  responseBody : String
  fingerprint : String
  clusterID : Option String
  schemaID : Option String
  projectID : Option String
deriving DecidableEq, Repr

/-! Section: Inference engine (package inference, BuildFromTraffic)

Go maps are modelled as insertion-ordered association lists; map iteration is
modelled as iteration in insertion order (the Go order is unspecified, and no
theorem below depends on it). -/

def unknownRef : TypeRef := .base KindScalar (some "String")

def scalarRef (name : String) : TypeRef := .base KindScalar (some name)

def objectRef (name : String) : TypeRef := .base KindObject (some name)

def listRef (of : TypeRef) : TypeRef := .wrap KindList none of

def isIDField (name : String) : Bool :=
  let lower := strToLower name
  lower = "id" || strHasSuffix lower "id" || strHasSuffix lower "_id"

/-- Go: inference.pascalCase — capitalise the first byte. -/
def pascalCase (s : String) : String :=
  match s.data with
  | [] => "Unknown"
  | c :: cs => ⟨asciiToUpper c :: cs⟩

/-- Go: inference.singularize. -/
def singularize (s : String) : String :=
  if strHasSuffix s "ies" && s.length > 4 then ⟨s.data.take (s.length - 3)⟩ ++ "y"
  else if strHasSuffix s "ses" && s.length > 4 then ⟨s.data.take (s.length - 2)⟩
  else if strHasSuffix s "s" && s.length > 3 then ⟨s.data.take (s.length - 1)⟩
  else s

def isWordChar (c : Char) : Bool :=
  ('a' ≤ c && c ≤ 'z') || ('A' ≤ c && c ≤ 'Z') || ('0' ≤ c && c ≤ '9') || c = '_'

/-- Case-insensitive keyword at the start of `t` followed by a `\b` word
boundary (the regex `(?i)^\s*(kw)\b` applied to a trimmed line). -/
def matchKeywordAt (kw : String) (t : List Char) : Bool :=
  charsStarts kw.data (t.map asciiToLower) && !(isWordChar ((t.drop kw.length).headD ' '))

def parseOpKindLines : List String → String
  | [] => "query"
  | line :: rest =>
    let t := (strTrimSpace line).data
    if matchKeywordAt "query" t then "query"
    else if matchKeywordAt "mutation" t then "mutation"
    else if matchKeywordAt "subscription" t then "subscription"
    else parseOpKindLines rest

/-- Go: inference.parseOpKind — first line matching the operation-declaration
regex decides the kind; default "query". -/
def parseOpKind (query : String) : String :=
  parseOpKindLines (strSplitOn query '\n')

abbrev TypeMapA := List (String × SType)

def typeMapLookup (m : TypeMapA) (name : String) : Option SType :=
  (m.find? (fun p => p.1 = name)).map (·.2)

def typeMapSet (m : TypeMapA) (name : String) (t : SType) : TypeMapA :=
  if (m.find? (fun p => p.1 = name)).isSome
  then m.map (fun p => if p.1 = name then (name, t) else p)
  else m ++ [(name, t)]

/-- Go map write `fieldMap[f.Name] = f` (overwrite or append). -/
def fieldMapInsertOver (m : List (String × SField)) (f : SField) : List (String × SField) :=
  if (m.find? (fun p => p.1 = f.name)).isSome
  then m.map (fun p => if p.1 = f.name then (f.name, f) else p)
  else m ++ [(f.name, f)]

/-- Insert only when the field name is not yet present (first one wins). -/
def fieldMapInsertIfAbsent (m : List (String × SField)) (f : SField) : List (String × SField) :=
  if (m.find? (fun p => p.1 = f.name)).isSome then m else m ++ [(f.name, f)]

/-- Go: inference.mergeType — union of field sets by name, first TypeRef
wins for `b`'s duplicates; all non-field attributes come from `a`. -/
def mergeType (a b : SType) : SType :=
  let m1 := a.fields.foldl fieldMapInsertOver []
  let m2 := b.fields.foldl fieldMapInsertIfAbsent m1
  { a with fields := m2.map (·.2) }

def mkInferredField (name : String) (t : TypeRef) : SField :=
  { name := name, description := "", type := t, args := [], isDeprecated := false,
    deprecationReason := "" }

def mkObjectType (name : String) (fields : List SField) : SType :=
  { name := name, kind := KindObject, description := "", fields := fields,
    inputFields := [], enumValues := [], interfaces := [], possibleTypes := [] }

mutual

/-- Go: inference.inferTypeRef — recursively inspect a JSON value, threading
the discovered object types. -/
def inferTypeRef (fieldName : String) (v : Json) (types : TypeMapA) :
    TypeRef × TypeMapA :=
  match v with
  | .null => (unknownRef, types)
  | .str _ => (if isIDField fieldName then scalarRef "ID" else scalarRef "String", types)
  | .bool _ => (scalarRef "Boolean", types)
  | .arr elems => inferArrElem (singularize fieldName) elems types
  | .obj ofs =>
    let typeName := pascalCase fieldName
    let r := inferObjFields ofs types
    let t := mkObjectType typeName r.1
    let ts2 :=
      match typeMapLookup r.2 typeName with
      | some existing => typeMapSet r.2 typeName (mergeType existing t)
      | none => typeMapSet r.2 typeName t
    (objectRef typeName, ts2)
  | .num lit => (if strAnyCharIn lit ".eE" then scalarRef "Float" else scalarRef "Int", types)

/-- The array branch: the first non-null element decides the element type
(empty or all-null arrays degrade to the String placeholder). -/
def inferArrElem (name : String) (elems : List Json) (types : TypeMapA) :
    TypeRef × TypeMapA :=
  match elems with
  | [] => (listRef unknownRef, types)
  | e :: rest =>
    if e.isNullLit then inferArrElem name rest types
    else
      let r := inferTypeRef name e types
      (listRef r.1, r.2)

def inferObjFields (ofs : List (String × Json)) (types : TypeMapA) :
    List SField × TypeMapA :=
  match ofs with
  | [] => ([], types)
  | (subField, subValue) :: rest =>
    let r1 := inferTypeRef subField subValue types
    let r2 := inferObjFields rest r1.2
    (mkInferredField subField r1.1 :: r2.1, r2.2)

end

def inferRootFields : List (String × Json) → TypeMapA → List SField × TypeMapA
  | [], types => ([], types)
  | (fieldName, value) :: rest, types =>
    let r1 := inferTypeRef fieldName value types
    let r2 := inferRootFields rest r1.2
    (mkInferredField fieldName r1.1 :: r2.1, r2.2)

/-- Go: inference.inferFromResponse — parse `{"data":{...}}` and infer the
root fields plus discovered object types.  Exchanges whose body is empty, not
JSON, lacking `data`, or with null/non-object `data` yield nothing. -/
def inferFromResponse (body : String) : List SField × TypeMapA :=
  if body.length = 0 then ([], [])
  else
    match Json.parse body with
    | none => ([], [])
    | some j =>
      match j with
      | .null => ([], [])
      | .obj fs =>
        match jsonLookup fs "data" with
        | none => ([], [])
        | some .null => ([], [])
        | some (.obj dataFs) => inferRootFields dataFs []
        | some _ => ([], [])
      | _ => ([], [])

/-- Go: inference.tryParseIntrospection — requires a non-empty body containing
the literal `__schema` that parses into ≥ 1 type.  `genId` and `now` stand in
for generateID() and time.Now().UTC(). -/
def tryParseIntrospection (body : String) (genId : String) (projectName : String)
    (now : Nat) : Option Schema :=
  if body.length = 0 || !strContainsSub body "__schema" then none
  else
    match ParseIntrospection body genId (projectName ++ " (inferred)") now with
    | none => none
    | some s => if s.types.length = 0 then none else some { s with createdAt := now }

/-- Phase 1 of BuildFromTraffic: first exchange whose body passes introspection
auto-detection wins. -/
def phase1Introspection : List CapturedRequest → String → String → Nat → Option Schema
  | [], _, _, _ => none
  | req :: rest, genId, pn, now =>
    match tryParseIntrospection req.responseBody genId pn now with
    | some s => some s
    | none => phase1Introspection rest genId pn now

structure Phase2State where
  typeMap : TypeMapA
  queryFields : List (String × SField)
  mutFields : List (String × SField)
  subFields : List (String × SField)
deriving DecidableEq, Repr

def phase2Init : Phase2State := ⟨[], [], [], []⟩

/-- One iteration of BuildFromTraffic's phase-2 loop over an exchange. -/
def phase2Step (st : Phase2State) (req : CapturedRequest) : Phase2State :=
  if req.query = "" then st
  else
    let opKind := parseOpKind req.query
    let r := inferFromResponse req.responseBody
    let typeMap2 := r.2.foldl
      (fun m p =>
        match typeMapLookup m p.1 with
        | some existing => typeMapSet m p.1 (mergeType existing p.2)
        | none => typeMapSet m p.1 p.2)
      st.typeMap
    let bucket :=
      if opKind = "mutation" then st.mutFields
      else if opKind = "subscription" then st.subFields
      else st.queryFields
    let bucket1 := r.1.foldl fieldMapInsertIfAbsent bucket
    let bucket2 :=
      if r.1.length = 0 && req.operationName ≠ "" then
        fieldMapInsertIfAbsent bucket1 (mkInferredField req.operationName unknownRef)
      else bucket1
    if opKind = "mutation" then { st with typeMap := typeMap2, mutFields := bucket2 }
    else if opKind = "subscription" then { st with typeMap := typeMap2, subFields := bucket2 }
    else { st with typeMap := typeMap2, queryFields := bucket2 }

def placeholderField : SField :=
  { name := "_placeholder", description := "No query operations captured yet",
    type := unknownRef, args := [], isDeprecated := false, deprecationReason := "" }

/-- The Query root type BuildFromTraffic emits: the collected query-bucket
fields, or the single `_placeholder` field when the bucket is empty. -/
def queryTypeOf (st : Phase2State) : SType :=
  mkObjectType "Query"
    (if (st.queryFields.map (·.2)).length = 0 then [placeholderField]
     else st.queryFields.map (·.2))

/-- The type list BuildFromTraffic assembles: inferred object types first,
then the Query root, then Mutation/Subscription roots when their buckets are
non-empty. -/
def inferredTypes (st : Phase2State) : List SType :=
  (st.typeMap.map (·.2) ++ [queryTypeOf st]) ++
    (if 0 < st.mutFields.length
     then [mkObjectType "Mutation" (st.mutFields.map (·.2))] else []) ++
    (if 0 < st.subFields.length
     then [mkObjectType "Subscription" (st.subFields.map (·.2))] else [])

/-- The schema literal BuildFromTraffic returns on the phase-2 path. -/
def buildInferredSchema (st : Phase2State) (projectName genId : String)
    (now : Nat) : Schema :=
  { id := genId
    name := projectName ++ " (inferred)"
    source := SourceReconstruction
    queryType := "Query"
    mutationType := if 0 < st.mutFields.length then "Mutation" else ""
    subscriptionType := if 0 < st.subFields.length then "Subscription" else ""
    types := inferredTypes st
    directives := []
    createdAt := now }

def phase2Assemble (reqs : List CapturedRequest) (projectName genId : String)
    (now : Nat) : Schema :=
  buildInferredSchema (reqs.foldl phase2Step phase2Init) projectName genId now

/-- Go: inference.BuildFromTraffic.  `genId` models generateID() and `now`
models time.Now().UTC() (the ids minted by the several generateID() calls are
collapsed into one parameter; no property below depends on their values). -/
def BuildFromTraffic (reqs : List CapturedRequest) (projectName : String)
    (genId : String) (now : Nat) : Schema :=
  match phase1Introspection reqs genId projectName now with
  | some s => s
  | none => phase2Assemble reqs projectName genId now

/-! Section: Proxy (internal/proxy/proxy.go)

HTTP requests are modelled structurally: the URL carries its parsed query
parameters (Go's url.Query()), header lookups return the first value for a
key (keys are assumed canonical), and the request body is the buffered byte
string. -/

structure URL where
  scheme : String
  host : String
  path : String
  query : List (String × String)
deriving DecidableEq, Repr

structure Request where
  method : String
  url : URL
  host : String
  headers : List (String × String)
  body : String
  requestURI : String
deriving DecidableEq, Repr

def headerGet (hs : List (String × String)) (k : String) : String :=
  (((hs.find? (fun p => p.1 = k)).map (·.2))).getD ""

def urlQueryGet (q : List (String × String)) (k : String) : String :=
  (((q.find? (fun p => p.1 = k)).map (·.2))).getD ""

/-- Go: proxy.IsGraphQLRequest. -/
def IsGraphQLRequest (r : Request) : Bool :=
  let path := strToLower r.url.path
  if strContainsSub path "graphql" || strContainsSub path "gql" then true
  else if r.method = "GET" && urlQueryGet r.url.query "query" ≠ "" then true
  else
    let ct := headerGet r.headers "Content-Type"
    r.method = "POST" && strContainsSub ct "application/json"

structure GraphqlPayload where
  query : String
  operationName : String
  variablesRaw : Option String
deriving DecidableEq, Repr

/-- encoding/json.Unmarshal into `graphqlPayload`; the `variables` raw message
keeps the bytes of the JSON value (modelled as its compact rendering). -/
def decodeGraphqlPayload : Json → Option GraphqlPayload
  | .null => some ⟨"", "", none⟩
  | .obj fs => do
    let q ← decField fs "query" decodeString ""
    let op ← decField fs "operationName" decodeString ""
    some ⟨q, op, (jsonLookup fs "variables").map Json.render⟩
  | _ => none

/-- The batched-GraphQL fallback: an array of payloads, first element wins. -/
def tryBatchPayload : Json → Option GraphqlPayload
  | .arr es =>
    match es.mapM decodeGraphqlPayload with
    | some batch => batch.head?
    | none => none
  | _ => none

/-- Go: proxy.ExtractGraphQLPayload.  The POST body is already buffered in
`r.body`, so the read-and-restore step is implicit; `none` models the
`nil, nil` non-extractable result (and the read-error result). -/
def ExtractGraphQLPayload (r : Request) : Option GraphqlPayload :=
  if r.method = "GET" then
    let q := r.url.query
    some
      { query := urlQueryGet q "query"
        operationName := urlQueryGet q "operationName"
        variablesRaw :=
          if urlQueryGet q "variables" ≠ "" then some (urlQueryGet q "variables") else none }
  else
    match Json.parse r.body with
    | none => none
    | some j =>
      match decodeGraphqlPayload j with
      | some p => if p.query ≠ "" then some p else tryBatchPayload j
      | none => tryBatchPayload j

def opBreakChar (c : Char) : Bool :=
  c = '(' || c = '\x7b' || c = ' ' || c = '\n' || c = '\r' || c = '\t'

/-- The identifier following the first occurrence of `pre`, up to the first
`(`, `{` or whitespace; `""` when `pre` does not occur or the identifier is
empty. -/
def identAfter (q : String) (pre : String) : String :=
  match strIndexOf q pre with
  | none => ""
  | some i => ⟨(q.data.drop (i + pre.length)).takeWhile (fun c => !opBreakChar c)⟩

/-- Go: proxy.ExtractOperationName — try `query `, `mutation `,
`subscription ` in that fixed order; the first pattern whose following
identifier is non-empty wins. -/
def ExtractOperationName (query : String) : String :=
  let q := strTrimSpace query
  let n1 := identAfter q "query "
  if n1 ≠ "" then n1
  else
    let n2 := identAfter q "mutation "
    if n2 ≠ "" then n2
    else
      let n3 := identAfter q "subscription "
      if n3 ≠ "" then n3 else ""

/-- Go: proxy.generateTrafficID.  `randRead` is the result of reading 12
bytes from crypto/rand (`none` = read error, which falls back to the
timestamp form). -/
def generateTrafficID (randRead : Option (List Nat)) (nowUnixNano : Int) : String :=
  match randRead with
  | none => "trf_" ++ toString nowUnixNano
  | some b => "trf_" ++ hexEncodeBytes b

structure HttpResponse where
  statusCode : Nat
  status : String
  headers : List (String × String)
  body : String
deriving DecidableEq, Repr

/-- The header lines forwardAndCapture writes back: the upstream response
headers verbatim (flattening multi-valued headers), followed by an appended
Content-Length carrying the buffered body length. -/
def writeBackHeaderLines (resp : HttpResponse) (respBody : String) :
    List (String × String) :=
  resp.headers ++ [("Content-Length", toString respBody.length)]

def renderHeaderLines : List (String × String) → String
  | [] => ""
  | (k, v) :: rest => k ++ ": " ++ v ++ "\r\n" ++ renderHeaderLines rest

/-- The bytes forwardAndCapture writes to the client on upstream success
(`respBuf` in the source): status line, header lines, blank line, body.
Note Go's `resp.Status` already contains the status code ("200 OK"). -/
def buildClientResponse (resp : HttpResponse) (respBody : String) : String :=
  "HTTP/1.1 " ++ toString resp.statusCode ++ " " ++ resp.status ++ "\r\n" ++
    renderHeaderLines (writeBackHeaderLines resp respBody) ++ "\r\n" ++ respBody

/-- The ambient inputs of one capture: the crypto/rand read, the two time
reads and the project tag read under the mutex. -/
structure CaptureEnv where
  randBytes : Option (List Nat)
  nowUnixNano : Int
  now : Nat
  projectID : String
deriving Repr

def renderQueryParams : List (String × String) → String
  | [] => ""
  | [(k, v)] => k ++ "=" ++ v
  | (k, v) :: p :: rest => k ++ "=" ++ v ++ "&" ++ renderQueryParams (p :: rest)

/-- Go: req.URL.String() (percent-escaping not modelled). -/
def renderURL (u : URL) : String :=
  u.scheme ++ "://" ++ u.host ++ u.path ++
    (if u.query.isEmpty then "" else "?" ++ renderQueryParams u.query)

/-- The `headers[k] = req.Header.Get(k)` map of captureTraffic, modelled in
first-occurrence key order. -/
def captureHeaders (hs : List (String × String)) : List (String × String) :=
  hs.foldl
    (fun m p =>
      if (m.find? (fun q => q.1 = p.1)).isSome then m else m ++ [(p.1, headerGet hs p.1)])
    []

/-- The CapturedRequest literal built by proxy.captureTraffic. -/
def buildCapture (env : CaptureEnv) (req : Request) (payload : GraphqlPayload)
    (statusCode : Nat) (respBody : String) : CapturedRequest :=
  let opName :=
    if payload.operationName = "" then ExtractOperationName payload.query
    else payload.operationName
  { id := generateTrafficID env.randBytes env.nowUnixNano
    timestamp := env.now
    method := req.method
    url := renderURL req.url
    host := req.host
    headers := captureHeaders req.headers
    operationName := opName
    query := payload.query
    variablesRaw := payload.variablesRaw
    responseCode := statusCode
    responseBody := respBody
    fingerprint := ""
    clusterID := none
    schemaID := none
    projectID := if env.projectID ≠ "" then some env.projectID else none }

/-- json.Marshal of a CapturedRequest with the struct's tags (omitempty
respected; the abstract timestamp is emitted as a number).  Marshalling can
fail only through the two json.RawMessage fields, whose raw bytes the encoder
validates: invalid `Variables` or a non-empty non-JSON `ResponseBody` make
Marshal return an error, modelled as `none`. -/
def marshalCaptured (c : CapturedRequest) : Option String := do
  let vars ←
    match c.variablesRaw with
    | none => some none
    | some v => (Json.parse v).map some
  let respB ←
    if c.responseBody = "" then some none
    else (Json.parse c.responseBody).map some
  let base : List (String × Json) :=
    [("id", .str c.id), ("timestamp", .num (toString c.timestamp)),
     ("method", .str c.method), ("url", .str c.url), ("host", .str c.host)]
  let hs :=
    if c.headers.isEmpty then ([] : List (String × Json))
    else [("headers", Json.obj (c.headers.map (fun p => (p.1, Json.str p.2))))]
  let opn := if c.operationName = "" then ([] : List (String × Json))
    else [("operationName", Json.str c.operationName)]
  let qf := if c.query = "" then ([] : List (String × Json))
    else [("query", Json.str c.query)]
  let vf := match vars with | some v => [("variables", v)] | none => ([] : List (String × Json))
  let rc := if c.responseCode = 0 then ([] : List (String × Json))
    else [("responseCode", Json.num (toString c.responseCode))]
  let rb := match respB with | some v => [("responseBody", v)] | none => ([] : List (String × Json))
  let fp := if c.fingerprint = "" then ([] : List (String × Json))
    else [("fingerprint", Json.str c.fingerprint)]
  let cl := match c.clusterID with | some v => [("clusterId", Json.str v)] | none => ([] : List (String × Json))
  let si := match c.schemaID with | some v => [("schemaId", Json.str v)] | none => ([] : List (String × Json))
  let pj := match c.projectID with | some v => [("projectId", Json.str v)] | none => ([] : List (String × Json))
  some ((Json.obj (base ++ hs ++ opn ++ qf ++ vf ++ rc ++ rb ++ fp ++ cl ++ si ++ pj)).render)

def jsonMarshalOk (c : CapturedRequest) : Bool :=
  (marshalCaptured c).isSome

/-- The persistence/broadcast effects of one forwarded exchange: the
arguments of the TrafficRepo.Save calls and the events that reach the
subscriber fan-out (broadcast silently drops the event when json.Marshal
fails). -/
structure CaptureResult where
  saved : List CapturedRequest
  events : List CapturedRequest
deriving DecidableEq, Repr

/-- Go: proxy.captureTraffic — build the capture, Save it once, broadcast it
once (the broadcast is skipped when the capture does not marshal). -/
def captureTraffic (env : CaptureEnv) (req : Request) (payload : GraphqlPayload)
    (statusCode : Nat) (respBody : String) : CaptureResult :=
  let captured := buildCapture env req payload statusCode respBody
  { saved := [captured]
    events := if jsonMarshalOk captured then [captured] else [] }

structure ForwardResult where
  clientWrite : String
  saved : List CapturedRequest
  events : List CapturedRequest
deriving DecidableEq, Repr

/-- Go: proxy.forwardAndCapture.  `upstream` is the outcome of the shared
HTTP client's round trip (`none` = error, `some resp` = a response whose body
buffers to `resp.body`). -/
def forwardAndCapture (env : CaptureEnv) (req : Request)
    (upstream : Option HttpResponse) : ForwardResult :=
  let isGQL := IsGraphQLRequest req
  let payload := if isGQL then ExtractGraphQLPayload req else none
  match upstream with
  | none =>
    { clientWrite := "HTTP/1.1 502 Bad Gateway\r\nContent-Length: 0\r\n\r\n"
      saved := []
      events := [] }
  | some resp =>
    let write := buildClientResponse resp resp.body
    match payload with
    | some p =>
      if p.query ≠ "" then
        let r := captureTraffic env req p resp.statusCode resp.body
        { clientWrite := write, saved := r.saved, events := r.events }
      else { clientWrite := write, saved := [], events := [] }
    | none => { clientWrite := write, saved := [], events := [] }

/-- Go: net.SplitHostPort restricted to the authorities this proxy sees
(`host` or `host:port`; bracketed IPv6 literals are not modelled).  No colon
is a missing-port error, several colons a too-many-colons error. -/
def splitHostPort (hostport : String) : Option (String × String) :=
  match strSplitOn hostport ':' with
  | [h, p] => some (h, p)
  | _ => none

/-- Go: proxy.handleConnect, the per-inner-request URL rewrite: force https,
set the URL host from the CONNECT target — dropping the `:port` when
SplitHostPort succeeds — and clear RequestURI. -/
def rewriteInnerRequest (connectHost : String) (innerReq : Request) : Request :=
  let newHost :=
    match splitHostPort connectHost with
    | some hp => hp.1
    | none => connectHost
  { innerReq with
    url := { innerReq.url with scheme := "https", host := newHost }
    requestURI := "" }

/-- Go: proxy.handleHTTP's request normalisation before forwarding. -/
def rewritePlainRequest (r : Request) : Request :=
  let u1 := if r.url.scheme = "" then { r.url with scheme := "http" } else r.url
  let u2 := if u1.host = "" then { u1 with host := r.host } else u1
  { r with url := u2, requestURI := "" }

/-! Section: Event bus and proxy lifecycle state -/

def subscriberBufferCap : Nat := 64

/-- A subscriber channel's buffered, not-yet-received events (Subscribe makes
`chan []byte` with capacity 64). -/
abbrev Subscriber := List String

/-- Go: the fan-out loop of proxy.broadcast — a non-blocking send per
subscriber: enqueue when the 64-slot buffer has room, otherwise silently drop
the event for that subscriber only. -/
def broadcastData (subs : List Subscriber) (data : String) : List Subscriber :=
  subs.map (fun ch => if ch.length < subscriberBufferCap then ch ++ [data] else ch)

/-- The proxy's mutable state: `running` and `projectID` under `mu`, the
listener (none = nil; some true = open, some false = closed), and the
subscription map as the list of live subscriber buffers. -/
structure ProxyState where
  running : Bool
  listener : Option Bool
  projectID : String
  subs : List Subscriber
deriving DecidableEq, Repr

/-- Go: Proxy.Stop — a no-op when already stopped; otherwise clear `running`
and close the listener.  (Close's error return is not modelled.) -/
def stopProxy (p : ProxyState) : ProxyState :=
  if !p.running then p
  else { p with running := false, listener := p.listener.map (fun _ => false) }

/-- Go: Proxy.Subscribe — register a fresh empty 64-slot buffer. -/
def subscribeProxy (p : ProxyState) : ProxyState :=
  { p with subs := p.subs ++ [[]] }

/-- Go: Proxy.SetProjectID. -/
def setProjectID (p : ProxyState) (id : String) : ProxyState :=
  { p with projectID := id }

/-- Go: Proxy.broadcast — marshal the capture (returning untouched on
error), then fan out to every registered subscriber. -/
def broadcastCapture (p : ProxyState) (c : CapturedRequest) : ProxyState :=
  match marshalCaptured c with
  | none => p
  | some data => { p with subs := broadcastData p.subs data }

/-! Section: Specification-worded variants used for refinement comparisons -/

/-- The singularisation rule as the specification words it: the `ses` branch
strips exactly the one trailing `s`.  (The source's `singularize` strips the
two trailing characters `es` in that branch.) -/
def specSingularize (s : String) : String :=
  if strHasSuffix s "ies" && s.length > 4 then ⟨s.data.take (s.length - 3)⟩ ++ "y"
  else if strHasSuffix s "ses" && s.length > 4 then ⟨s.data.take (s.length - 1)⟩
  else if strHasSuffix s "s" && s.length > 3 then ⟨s.data.take (s.length - 1)⟩
  else s

/-- Operation-name derivation as the specification words it: take the
identifier after whichever of `query `, `mutation `, `subscription ` occurs
earliest in the string.  (The source tries the three patterns in a fixed
priority order instead.) -/
def specEarliestOpName (query : String) : String :=
  let cands := ["query ", "mutation ", "subscription "].filterMap
    (fun pre => (strIndexOf query pre).map (fun i => (i, pre)))
  match cands.foldl
      (fun acc c =>
        match acc with
        | none => some c
        | some b => if c.1 < b.1 then some c else some b)
      none with
  | none => ""
  | some ip => identAfter query ip.2

/-! Section: Concrete exchanges and requests used in the verification -/

def introBody2 : String :=
  "\x7b\"__schema\":\x7b\"types\":[\x7b\"kind\":\"SCALAR\",\"name\":\"Int\"\x7d]\x7d\x7d"

def introBody3 : String :=
  "\x7b\"types\":[\x7b\"kind\":\"OBJECT\",\"name\":\"Query\"\x7d]\x7d"

def emptyCapture : CapturedRequest :=
  { id := ""
    timestamp := 0
    method := "POST"
    url := ""
    host := ""
    headers := []
    operationName := ""
    query := ""
    variablesRaw := none
    responseCode := 200
    responseBody := ""
    fingerprint := ""
    clusterID := none
    schemaID := none
    projectID := none }

def cxIntroExchange : CapturedRequest :=
  { emptyCapture with responseBody := introBody2 }

def cxShape3Exchange : CapturedRequest :=
  { emptyCapture with responseBody := introBody3 }

/-- The value ParseIntrospection yields on `introBody2` (one SCALAR type,
no query root). -/
def introSchema2 : Schema :=
  { id := "id0"
    name := "p (inferred)"
    source := SourceIntrospection
    queryType := ""
    mutationType := ""
    subscriptionType := ""
    types := [{ name := "Int", kind := KindScalar, description := "", fields := [],
                inputFields := [], enumValues := [], interfaces := [], possibleTypes := [] }]
    directives := []
    createdAt := 5 }

def cxEnv : CaptureEnv :=
  { randBytes := some (List.replicate 12 0), nowUnixNano := 7, now := 3, projectID := "" }

def cxGetRequest : Request :=
  { method := "GET"
    url := { scheme := "http", host := "x", path := "/api/gql",
             query := [("query", "\x7bu\x7bid\x7d\x7d")] }
    host := "x"
    headers := []
    body := ""
    requestURI := "" }

def cxPayload : GraphqlPayload :=
  { query := "\x7bu\x7bid\x7d\x7d", operationName := "", variablesRaw := none }

def cxJsonResp : HttpResponse :=
  { statusCode := 200, status := "200 OK", headers := [("X-A", "1")], body := "\x7b\"a\":1\x7d" }

def cxClResp : HttpResponse :=
  { statusCode := 200, status := "200 OK", headers := [("Content-Length", "5")], body := "hello" }

/-! Section: Helper lemmas -/

theorem hexFold_length (bs : List Nat) :
    (bs.foldr (fun b acc => hexDigit ((b % 256) / 16) :: hexDigit (b % 256 % 16) :: acc)
      []).length = 2 * bs.length := by
  induction bs with
  | nil => rfl
  | cons b bs ih => simp [List.foldr, ih]; omega

theorem hexEncodeBytes_length (bs : List Nat) :
    (hexEncodeBytes bs).length = 2 * bs.length := by
  simpa [hexEncodeBytes, String.length] using hexFold_length bs

theorem phase1_of_first (pre rest : List CapturedRequest) (r : CapturedRequest)
    (gid pn : String) (now : Nat) (s : Schema)
    (hpre : ∀ x ∈ pre, tryParseIntrospection x.responseBody gid pn now = none)
    (hr : tryParseIntrospection r.responseBody gid pn now = some s) :
    phase1Introspection (pre ++ r :: rest) gid pn now = some s := by
  induction pre with
  | nil => simp [phase1Introspection, hr]
  | cons x xs ih =>
    have hx := hpre x (by simp)
    simpa [phase1Introspection, hx] using ih (fun y hy => hpre y (by simp [hy]))

theorem buildFromTraffic_phase2 (reqs : List CapturedRequest) (pn gid : String)
    (now : Nat) (h : phase1Introspection reqs gid pn now = none) :
    BuildFromTraffic reqs pn gid now = phase2Assemble reqs pn gid now := by
  unfold BuildFromTraffic
  rw [h]

theorem queryTypeOf_mem (st : Phase2State) : queryTypeOf st ∈ inferredTypes st := by
  unfold inferredTypes
  exact List.mem_append_left _
    (List.mem_append_left _ (List.mem_append_right _ (List.mem_singleton_self _)))

theorem queryTypeOf_fields_pos (st : Phase2State) : 0 < (queryTypeOf st).fields.length := by
  unfold queryTypeOf mkObjectType
  dsimp
  split
  · simp
  · next h => exact Nat.pos_of_ne_zero h

theorem broadcastData_get? (subs : List Subscriber) (data : String) (i : Nat) :
    (broadcastData subs data).get? i =
      (subs.get? i).map
        (fun ch => if ch.length < subscriberBufferCap then ch ++ [data] else ch) := by
  simp [broadcastData]

/-! Section: Claim theorems -/

/-- C9 counterexample: the claim says the `ses` branch strips exactly one
trailing `s` (so `analyses` would become `Analyse`), but `singularize` slices
off the two characters `es`, giving `analys` / `Analys`. -/
theorem C9_counterexample :
    singularize "analyses" = "analys" ∧
    specSingularize "analyses" = "analyse" ∧
    pascalCase (singularize "analyses") = "Analys" ∧
    singularize "analyses" ≠ specSingularize "analyses" := by decide

/-- C9 (amended): for every list-field name `s`, singularisation behaves as
the four-branch if/else rule: `ies` with length > 4 becomes `y`; else `ses`
with length > 4 strips the trailing `es` (two characters, so `analyses`
yields `Analys`); else a trailing `s` with length > 3 is stripped; otherwise
the name is unchanged.  The later branches are guarded by the negation of the
earlier branch conditions, so the four conjuncts cover every `s`. -/
theorem C9_singularize (s : String) :
    (strHasSuffix s "ies" = true → 4 < s.length →
      singularize s = ⟨s.data.take (s.length - 3)⟩ ++ "y") ∧
    (¬(strHasSuffix s "ies" = true ∧ 4 < s.length) →
      strHasSuffix s "ses" = true → 4 < s.length →
      singularize s = ⟨s.data.take (s.length - 2)⟩) ∧
    (¬(strHasSuffix s "ies" = true ∧ 4 < s.length) →
      ¬(strHasSuffix s "ses" = true ∧ 4 < s.length) →
      strHasSuffix s "s" = true → 3 < s.length →
      singularize s = ⟨s.data.take (s.length - 1)⟩) ∧
    (¬(strHasSuffix s "ies" = true ∧ 4 < s.length) →
      ¬(strHasSuffix s "ses" = true ∧ 4 < s.length) →
      ¬(strHasSuffix s "s" = true ∧ 3 < s.length) → singularize s = s) ∧
    singularize "categories" = "category" ∧ singularize "posts" = "post" ∧
    singularize "dies" = "die" ∧ singularize "oses" = "ose" ∧
    singularize "as" = "as" := by
  refine ⟨?_, ?_, ?_, ?_, by decide, by decide, by decide, by decide, by decide⟩
  · intro h1 h2
    simp only [singularize, Bool.and_eq_true, decide_eq_true_eq]
    rw [if_pos ⟨h1, h2⟩]
  · intro h1 h2 h3
    simp only [singularize, Bool.and_eq_true, decide_eq_true_eq]
    rw [if_neg h1, if_pos ⟨h2, h3⟩]
  · intro h1 h2 h3 h4
    simp only [singularize, Bool.and_eq_true, decide_eq_true_eq]
    rw [if_neg h1, if_neg h2, if_pos ⟨h3, h4⟩]
  · intro h1 h2 h3
    simp only [singularize, Bool.and_eq_true, decide_eq_true_eq]
    rw [if_neg h1, if_neg h2, if_neg h3]

/-- C9 witness: the `ses` branch evaluated at `classes` (length 7 > 4), the
boundary `s` branch at `dies` (length 4, so the `ies` branch does not fire),
and the unchanged branch at `as`. -/
theorem C9_witness :
    ¬(strHasSuffix "classes" "ies" = true ∧ 4 < ("classes" : String).length) ∧
    strHasSuffix "classes" "ses" = true ∧ 4 < ("classes" : String).length ∧
    singularize "classes" =
      ⟨("classes" : String).data.take (("classes" : String).length - 2)⟩ ∧
    singularize "dies" = ⟨("dies" : String).data.take (("dies" : String).length - 1)⟩ ∧
    singularize "as" = "as" :=
  ⟨by decide, by decide, by decide,
   (C9_singularize "classes").2.1 (by decide) (by decide) (by decide),
   (C9_singularize "dies").2.2.1 (by decide) (by decide) (by decide) (by decide),
   (C9_singularize "as").2.2.2.1 (by decide) (by decide) (by decide)⟩

/-- C8 counterexample: in `mutation M query Q` the earliest of the three
patterns is `mutation ` (index 0), so the claim's rule yields `M`; the code
checks `query ` first regardless of position and returns `Q`. -/
theorem C8_counterexample :
    ExtractOperationName "mutation M query Q" = "Q" ∧
    specEarliestOpName "mutation M query Q" = "M" ∧
    ExtractOperationName "mutation M query Q" ≠
      specEarliestOpName "mutation M query Q" := by decide

/-- C8 (amended): when the extracted operationName is empty the capture's
name comes from ExtractOperationName, which tries `query `, `mutation `,
`subscription ` in that fixed priority order (not earliest-in-string),
returning the identifier after the first pattern in that order whose
following identifier (up to `(`, `{` or whitespace) is non-empty. -/
theorem C8_opname (env : CaptureEnv) (req : Request) (p : GraphqlPayload)
    (sc : Nat) (rb : String) (q : String) :
    (p.operationName = "" →
      (buildCapture env req p sc rb).operationName = ExtractOperationName p.query) ∧
    (p.operationName ≠ "" →
      (buildCapture env req p sc rb).operationName = p.operationName) ∧
    (identAfter (strTrimSpace q) "query " ≠ "" →
      ExtractOperationName q = identAfter (strTrimSpace q) "query ") ∧
    (identAfter (strTrimSpace q) "query " = "" →
      identAfter (strTrimSpace q) "mutation " ≠ "" →
      ExtractOperationName q = identAfter (strTrimSpace q) "mutation ") ∧
    (identAfter (strTrimSpace q) "query " = "" →
      identAfter (strTrimSpace q) "mutation " = "" →
      ExtractOperationName q = identAfter (strTrimSpace q) "subscription ") := by
  refine ⟨?_, ?_, ?_, ?_, ?_⟩
  · intro h
    simp [buildCapture, h]
  · intro h
    simp [buildCapture, h]
  · intro h
    simp [ExtractOperationName, h]
  · intro h1 h2
    simp [ExtractOperationName, h1, h2]
  · intro h1 h2
    by_cases h3 : identAfter (strTrimSpace q) "subscription " = "" <;>
      simp [ExtractOperationName, h1, h2, h3]

/-- C8 witness: the priority rule evaluated on `mutation M query Q`. -/
theorem C8_witness :
    identAfter (strTrimSpace "mutation M query Q") "query " ≠ "" ∧
    ExtractOperationName "mutation M query Q" =
      identAfter (strTrimSpace "mutation M query Q") "query " :=
  ⟨by decide,
   (C8_opname cxEnv cxGetRequest cxPayload 200 "" "mutation M query Q").2.2.1 (by decide)⟩

/-- C3 counterexample: for CONNECT target `api.example.com:443` the rewritten
URL authority is `api.example.com` — the `:443` suffix the claim says is kept
is stripped. -/
theorem C3_counterexample :
    (rewriteInnerRequest "api.example.com:443" cxGetRequest).url.host = "api.example.com" ∧
    (rewriteInnerRequest "api.example.com:443" cxGetRequest).url.host ≠
      "api.example.com:443" := by decide

/-- C3 (amended): the inner-request rewrite sets the scheme to https, clears
the request-target, and sets the URL authority to the CONNECT target with any
`:port` suffix removed (the target itself when it carries no port); all other
request components are untouched. -/
theorem C3_rewrite (a : String) (r : Request) :
    (rewriteInnerRequest a r).url.scheme = "https" ∧
    (rewriteInnerRequest a r).requestURI = "" ∧
    (rewriteInnerRequest a r).url.host =
      (match splitHostPort a with | some hp => hp.1 | none => a) ∧
    (rewriteInnerRequest a r).url.path = r.url.path ∧
    (rewriteInnerRequest a r).url.query = r.url.query ∧
    (rewriteInnerRequest a r).method = r.method ∧
    (rewriteInnerRequest a r).headers = r.headers ∧
    (rewriteInnerRequest a r).body = r.body := by
  simp [rewriteInnerRequest]

/-- C4 counterexample: when the upstream response already carries a
Content-Length header, the written header block holds TWO Content-Length
lines — the original is kept and another is appended, not replaced. -/
theorem C4_counterexample :
    writeBackHeaderLines cxClResp "hello" =
      [("Content-Length", "5"), ("Content-Length", "5")] ∧
    (writeBackHeaderLines cxClResp "hello").countP
      (fun kv => kv.1 = "Content-Length") = 2 := by decide

/-- C4 (amended): on upstream success the client receives the original status
and all original headers, with one additional Content-Length header carrying
the buffered body length appended after them; an original Content-Length is
kept alongside, not replaced. -/
theorem C4_writeback (resp : HttpResponse) (respBody : String) :
    (∀ kv ∈ resp.headers, kv ∈ writeBackHeaderLines resp respBody) ∧
    (writeBackHeaderLines resp respBody).countP (fun kv => kv.1 = "Content-Length") =
      resp.headers.countP (fun kv => kv.1 = "Content-Length") + 1 ∧
    (writeBackHeaderLines resp respBody).getLast? =
      some ("Content-Length", toString respBody.length) ∧
    buildClientResponse resp respBody =
      "HTTP/1.1 " ++ toString resp.statusCode ++ " " ++ resp.status ++ "\r\n" ++
        renderHeaderLines (writeBackHeaderLines resp respBody) ++ "\r\n" ++ respBody := by
  refine ⟨fun kv hkv => List.mem_append_left _ hkv, ?_, ?_, rfl⟩
  · simp [writeBackHeaderLines, List.countP_append]
  · simp [writeBackHeaderLines]

/-- C4 witness: the write-back evaluated at a response with a Content-Length
header and the body `hello`. -/
theorem C4_witness :
    ("Content-Length", "5") ∈ cxClResp.headers ∧
    ("Content-Length", "5") ∈ writeBackHeaderLines cxClResp "hello" ∧
    (writeBackHeaderLines cxClResp "hello").countP (fun kv => kv.1 = "Content-Length") =
      cxClResp.headers.countP (fun kv => kv.1 = "Content-Length") + 1 :=
  ⟨by decide, (C4_writeback cxClResp "hello").1 ("Content-Length", "5") (by decide),
   (C4_writeback cxClResp "hello").2.1⟩

/-- C7 counterexample: the minted id hex-encodes 12 random bytes (96 bits,
24 hex digits; total length 4 + 24 = 28), not the 128 bits (32 hex digits,
total length 36) the claim states. -/
theorem C7_counterexample :
    generateTrafficID (some (List.replicate 12 0)) 7 = "trf_000000000000000000000000" ∧
    (generateTrafficID (some (List.replicate 12 0)) 7).length = 28 ∧
    (generateTrafficID (some (List.replicate 12 0)) 7).length ≠ 4 + 32 := by decide

/-- C7 (amended): every capture's id is generateTrafficID's output, which on a
successful 12-byte crypto/rand read is the domain prefix `trf_` followed by
the hex encoding of 96 random bits (24 hex digits); on a failed read it falls
back to `trf_<unix-nanos>`. -/
theorem C7_idFormat (bs : List Nat) (t : Int) (env : CaptureEnv) (req : Request)
    (p : GraphqlPayload) (sc : Nat) (rb : String) (h : bs.length = 12) :
    generateTrafficID (some bs) t = "trf_" ++ hexEncodeBytes bs ∧
    (hexEncodeBytes bs).length = 24 ∧
    (buildCapture env req p sc rb).id = generateTrafficID env.randBytes env.nowUnixNano := by
  refine ⟨rfl, ?_, rfl⟩
  rw [hexEncodeBytes_length, h]

/-- C7 witness: the id format evaluated at an all-zero 12-byte read. -/
theorem C7_witness :
    (List.replicate 12 0).length = 12 ∧
    generateTrafficID (some (List.replicate 12 0)) 7 =
      "trf_" ++ hexEncodeBytes (List.replicate 12 0) ∧
    (hexEncodeBytes (List.replicate 12 0)).length = 24 :=
  ⟨by decide,
   (C7_idFormat (List.replicate 12 0) 7 cxEnv cxGetRequest cxPayload 200 "" (by decide)).1,
   (C7_idFormat (List.replicate 12 0) 7 cxEnv cxGetRequest cxPayload 200 "" (by decide)).2.1⟩

/-- C5 (confirmed): Subscribe registers a fresh 64-slot buffer; the broadcast
fan-out delivers the serialized event to exactly the subscribers whose buffer
has free space, leaves full subscribers' buffers unchanged (the event is
dropped for them alone), never removes a subscriber, and each subscriber's
outcome depends only on its own buffer. -/
theorem C5_broadcast (subs : List Subscriber) (data : String) (p : ProxyState) :
    subscriberBufferCap = 64 ∧
    (subscribeProxy p).subs = p.subs ++ [[]] ∧
    (broadcastData subs data).length = subs.length ∧
    ∀ i, i < subs.length →
      (broadcastData subs data).getD i [] =
        (if (subs.getD i []).length < subscriberBufferCap
         then subs.getD i [] ++ [data] else subs.getD i []) := by
  refine ⟨rfl, rfl, by simp [broadcastData], ?_⟩
  intro i hi
  have hv : subs.get? i = some (subs.get ⟨i, hi⟩) := List.get?_eq_get hi
  have hb := broadcastData_get? subs data i
  rw [hv] at hb
  have e1 : (broadcastData subs data).getD i [] =
      (if (subs.get ⟨i, hi⟩).length < subscriberBufferCap
       then subs.get ⟨i, hi⟩ ++ [data] else subs.get ⟨i, hi⟩) := by
    rw [List.getD_eq_getElem?_getD, ← List.get?_eq_getElem?, hb]
    rfl
  have e2 : subs.getD i [] = subs.get ⟨i, hi⟩ := by
    rw [List.getD_eq_getElem?_getD, ← List.get?_eq_getElem?, hv]
    rfl
  rw [e1, e2]

def cxFullBuffer : Subscriber := List.replicate 64 "x"

/-- C5 witness: broadcasting to one full and one empty subscriber — the full
one drops the event, the empty one receives it. -/
theorem C5_witness :
    (0 : Nat) < ([cxFullBuffer, []] : List Subscriber).length ∧
    (broadcastData [cxFullBuffer, []] "e").getD 0 [] = cxFullBuffer ∧
    (broadcastData [cxFullBuffer, []] "e").getD 1 [] = ["e"] :=
  ⟨by decide,
   ((C5_broadcast [cxFullBuffer, []] "e" ⟨true, some true, "", []⟩).2.2.2 0
      (by decide)).trans (by decide),
   ((C5_broadcast [cxFullBuffer, []] "e" ⟨true, some true, "", []⟩).2.2.2 1
      (by decide)).trans (by decide)⟩

/-- C10 (confirmed): Stop mutates only the running flag and the listener —
the subscription map, each subscriber's buffer and the project tag are
untouched, no channel is closed (no end-of-stream), and a broadcast performed
after Stop reaches exactly the same subscribers with the same outcome as
before Stop. -/
theorem C10_stop_frame (p : ProxyState) (c : CapturedRequest) (data : String) :
    (stopProxy p).subs = p.subs ∧
    (stopProxy p).projectID = p.projectID ∧
    (stopProxy p).running = false ∧
    (broadcastCapture (stopProxy p) c).subs = (broadcastCapture p c).subs ∧
    broadcastData (stopProxy p).subs data = broadcastData p.subs data := by
  have hsubs : (stopProxy p).subs = p.subs := by
    unfold stopProxy
    split <;> rfl
  have hproj : (stopProxy p).projectID = p.projectID := by
    unfold stopProxy
    split <;> rfl
  have hrun : (stopProxy p).running = false := by
    unfold stopProxy
    split
    · next h => simpa using h
    · rfl
  refine ⟨hsubs, hproj, hrun, ?_, by rw [hsubs]⟩
  unfold broadcastCapture
  cases marshalCaptured c <;> simp [hsubs]

/-- C1 counterexample: a request classified as GraphQL with a non-empty
extracted query for which the upstream call fails — the proxy answers 502 and
persists nothing and broadcasts nothing, where the claim demands exactly one
capture and one event for every such request. -/
theorem C1_counterexample :
    IsGraphQLRequest cxGetRequest = true ∧
    ExtractGraphQLPayload cxGetRequest = some cxPayload ∧
    cxPayload.query ≠ "" ∧
    (forwardAndCapture cxEnv cxGetRequest none).saved.length = 0 ∧
    (forwardAndCapture cxEnv cxGetRequest none).events.length = 0 := by decide

/-- C1 (amended): when the upstream call succeeds, a request classified as
GraphQL whose extracted query is non-empty is persisted exactly once, and
exactly one broadcast event is published provided the capture serializes to
JSON (invalid raw variables or a non-empty non-JSON response body make
json.Marshal fail, in which case the broadcast alone is skipped); a request
not classified as GraphQL, or without an extractable non-empty query, or
whose upstream call fails, yields zero captures and zero events. -/
theorem C1_capture_flow (env : CaptureEnv) (req : Request) :
    (∀ resp p, IsGraphQLRequest req = true → ExtractGraphQLPayload req = some p →
      p.query ≠ "" →
      (forwardAndCapture env req (some resp)).saved =
        [buildCapture env req p resp.statusCode resp.body] ∧
      (forwardAndCapture env req (some resp)).events.length =
        (if jsonMarshalOk (buildCapture env req p resp.statusCode resp.body)
         then 1 else 0)) ∧
    (∀ upstream, IsGraphQLRequest req = false →
      (forwardAndCapture env req upstream).saved = [] ∧
      (forwardAndCapture env req upstream).events = []) ∧
    (∀ upstream p, ExtractGraphQLPayload req = some p → p.query = "" →
      (forwardAndCapture env req upstream).saved = [] ∧
      (forwardAndCapture env req upstream).events = []) ∧
    (∀ upstream, ExtractGraphQLPayload req = none →
      (forwardAndCapture env req upstream).saved = [] ∧
      (forwardAndCapture env req upstream).events = []) ∧
    ((forwardAndCapture env req none).saved = [] ∧
      (forwardAndCapture env req none).events = []) := by
  refine ⟨?_, ?_, ?_, ?_, ⟨rfl, rfl⟩⟩
  · intro resp p h1 h2 h3
    have hforward : forwardAndCapture env req (some resp) =
        { clientWrite := buildClientResponse resp resp.body
          saved := [buildCapture env req p resp.statusCode resp.body]
          events :=
            if jsonMarshalOk (buildCapture env req p resp.statusCode resp.body)
            then [buildCapture env req p resp.statusCode resp.body] else [] } := by
      simp [forwardAndCapture, captureTraffic, h1, h2, h3]
    rw [hforward]
    exact ⟨rfl, by split <;> rfl⟩
  · intro upstream h
    cases upstream <;> simp [forwardAndCapture, h]
  · intro upstream p h1 h2
    cases upstream with
    | none => exact ⟨rfl, rfl⟩
    | some resp =>
      cases hb : IsGraphQLRequest req <;> simp [forwardAndCapture, hb, h1, h2]
  · intro upstream h
    cases upstream with
    | none => exact ⟨rfl, rfl⟩
    | some resp =>
      cases hb : IsGraphQLRequest req <;> simp [forwardAndCapture, hb, h]

/-- C1 witness: a GraphQL GET with a JSON upstream response — exactly one
save and one broadcast event. -/
theorem C1_witness :
    IsGraphQLRequest cxGetRequest = true ∧
    ExtractGraphQLPayload cxGetRequest = some cxPayload ∧
    cxPayload.query ≠ "" ∧
    ((forwardAndCapture cxEnv cxGetRequest (some cxJsonResp)).saved =
      [buildCapture cxEnv cxGetRequest cxPayload cxJsonResp.statusCode cxJsonResp.body] ∧
     (forwardAndCapture cxEnv cxGetRequest (some cxJsonResp)).events.length =
      (if jsonMarshalOk
          (buildCapture cxEnv cxGetRequest cxPayload cxJsonResp.statusCode cxJsonResp.body)
       then 1 else 0)) :=
  ⟨by decide, by decide, by decide,
   (C1_capture_flow cxEnv cxGetRequest).1 cxJsonResp cxPayload
     (by decide) (by decide) (by decide)⟩

/-- C2 (amended): if an exchange's response body contains the literal marker
`__schema` and parses as an introspection response yielding at least one type,
and it is the first exchange passing that detection, then BuildFromTraffic
returns that introspection parse and performs no phase-2 inference.  (The
claim omits the `__schema` marker gate, which the counterexample refutes.) -/
theorem C2_phase1_precedence (pre rest : List CapturedRequest) (r : CapturedRequest)
    (pn gid : String) (now : Nat) (s : Schema)
    (hpre : ∀ x ∈ pre, tryParseIntrospection x.responseBody gid pn now = none)
    (hr : tryParseIntrospection r.responseBody gid pn now = some s) :
    BuildFromTraffic (pre ++ r :: rest) pn gid now = s := by
  unfold BuildFromTraffic
  rw [phase1_of_first pre rest r gid pn now s hpre hr]

/-- The value ParseIntrospection yields on `introBody3` (raw-schema shape,
one OBJECT type named Query with no fields). -/
def introSchema3 : Schema :=
  { id := "id0"
    name := "p (inferred)"
    source := SourceIntrospection
    queryType := ""
    mutationType := ""
    subscriptionType := ""
    types := [{ name := "Query", kind := KindObject, description := "", fields := [],
                inputFields := [], enumValues := [], interfaces := [], possibleTypes := [] }]
    directives := []
    createdAt := 5 }

/-- C2 counterexample: a body in the parser's third accepted shape
(`{"queryType":…,"types":[…]}`) parses as an introspection response with one
type, yet — lacking the literal `__schema` — BuildFromTraffic ignores it and
runs phase 2, returning a reconstruction schema instead of the parse. -/
theorem C2_counterexample :
    ParseIntrospection introBody3 "id0" "p (inferred)" 5 = some introSchema3 ∧
    0 < introSchema3.types.length ∧
    strContainsSub introBody3 "__schema" = false ∧
    (BuildFromTraffic [cxShape3Exchange] "p" "id0" 5).source = SourceReconstruction ∧
    BuildFromTraffic [cxShape3Exchange] "p" "id0" 5 ≠ introSchema3 := by decide

/-- C2 witness: phase-1 precedence evaluated at a one-exchange history whose
body is a marker-bearing introspection response. -/
theorem C2_witness :
    tryParseIntrospection cxIntroExchange.responseBody "id0" "p" 5 = some introSchema2 ∧
    BuildFromTraffic [cxIntroExchange] "p" "id0" 5 = introSchema2 :=
  ⟨by decide,
   C2_phase1_precedence [] [] cxIntroExchange "p" "id0" 5 introSchema2
     (by intro x hx; cases hx) (by decide)⟩

/-- C6 (amended): on the phase-2 path (no exchange passes introspection
auto-detection) the returned schema contains a Query object type with at
least one field, and when no query-root field was discovered that type
carries exactly the one `_placeholder` field of type SCALAR String; the
phase-1 introspection path returns the introspection parse as-is, which need
not contain any Query type (see the counterexample). -/
theorem C6_query_root (reqs : List CapturedRequest) (pn gid : String) (now : Nat)
    (h : phase1Introspection reqs gid pn now = none) :
    ∃ t ∈ (BuildFromTraffic reqs pn gid now).types,
      t.name = "Query" ∧ t.kind = KindObject ∧ 0 < t.fields.length ∧
      ((reqs.foldl phase2Step phase2Init).queryFields = [] →
        t.fields = [placeholderField]) := by
  rw [buildFromTraffic_phase2 reqs pn gid now h]
  refine ⟨queryTypeOf (reqs.foldl phase2Step phase2Init), queryTypeOf_mem _, rfl, rfl,
    queryTypeOf_fields_pos _, ?_⟩
  intro hq
  simp [queryTypeOf, mkObjectType, hq]

/-- C6 counterexample: a marker-bearing introspection body whose only type is
the scalar `Int` — BuildFromTraffic returns it unchanged on the phase-1 path,
so the result has no Query type and no type with any field at all. -/
theorem C6_counterexample :
    strContainsSub introBody2 "__schema" = true ∧
    BuildFromTraffic [cxIntroExchange] "p" "id0" 5 = introSchema2 ∧
    introSchema2.types.map (fun t => t.name) = ["Int"] ∧
    introSchema2.types.map (fun t => t.fields.length) = [0] ∧
    introSchema2.queryType = "" := by decide

/-- C6 witness: the empty exchange list takes the phase-2 path and yields the
placeholder Query root. -/
theorem C6_witness :
    phase1Introspection [] "id0" "p" 0 = none ∧
    ∃ t ∈ (BuildFromTraffic [] "p" "id0" 0).types,
      t.name = "Query" ∧ t.kind = KindObject ∧ 0 < t.fields.length ∧
      ((([] : List CapturedRequest).foldl phase2Step phase2Init).queryFields = [] →
        t.fields = [placeholderField]) :=
  ⟨rfl, C6_query_root [] "p" "id0" 0 rfl⟩
